import Mathlib

/-!
Shallow embedding of the stub-generator module of `vue-testing-library-stubs`
(the TypeScript module exporting `getStub`, `getStubWithProps`,
`getEmittingStub`, `getEmittingStubWithProps`, `getMultiEmittingStubWithProps`,
`getExposedValidateStub`, `getExposedValidateStubWithProps` and
`getTemplateComponentForExposedFunction`).

The generators are pure string/record builders; they are translated directly.
The generated Vue templates embed small JavaScript expressions (`v-if`
conditions, `{{ ... }}` interpolations, `@click` handlers); the render-time
behavior of those embedded expressions is modelled here by Lean functions that
follow the template's structure condition by condition.
-/

namespace VueStubs

/-- JavaScript runtime values, as far as the generated templates inspect them:
`undefined`, `null`, booleans, numbers (integers suffice for this library's
observable behavior), strings, functions (carrying their declared `name`),
arrays, and plain objects. -/
inductive JSValue where
  | undef
  | null
  | bool (b : Bool)
  | num (n : Int)
  | str (s : String)
  | func (fname : String)
  | arr (elems : List JSValue)
  | obj (fields : List (String × JSValue))

/-- Mirrors `typeof x === 'function'`. -/
def isCallable : JSValue → Bool
  | .func _ => true
  | _ => false

/-- Mirrors the JS `typeof` operator (note `typeof null === 'object'` and
`typeof [] === 'object'`). -/
def typeofJS : JSValue → String
  | JSValue.undef => "undefined"
  | .null => "object"
  | .bool _ => "boolean"
  | .num _ => "number"
  | .str _ => "string"
  | .func _ => "function"
  | .arr _ => "object"
  | .obj _ => "object"

/-- ASCII lowercase letter test, mirroring the regex character class `[a-z]`. -/
def isLowerAscii (c : Char) : Bool := 'a' ≤ c && c ≤ 'z'

/-- JSON escaping of one character inside a string literal (quote, backslash
and the common control characters; all this library's observable inputs). -/
def jsonEscapeChar (c : Char) : String :=
  if c = '"' then "\\\""
  else if c = '\\' then "\\\\"
  else if c = '\n' then "\\n"
  else if c = '\t' then "\\t"
  else if c = '\r' then "\\r"
  else String.singleton c

/-- A JSON string literal for `s`. -/
def jsonQuote (s : String) : String :=
  "\"" ++ String.join (s.data.map jsonEscapeChar) ++ "\""

mutual

/-- `JSON.stringify`: `none` models the JS result `undefined` (for `undefined`
and function values); inside arrays such elements serialize as `null`, and
inside objects such members are omitted. -/
def jsonStringify : JSValue → Option String
  | JSValue.undef => none
  | .func _ => none
  | .null => some "null"
  | .bool b => some (cond b "true" "false")
  | .num n => some (toString n)
  | .str s => some (jsonQuote s)
  | .arr es => some ("[" ++ String.intercalate "," (jsonElems es) ++ "]")
  | .obj fs => some ("\x7b" ++ String.intercalate "," (jsonFields fs) ++ "\x7d")

/-- Array elements under `JSON.stringify`: unserializable elements become
`null`. -/
def jsonElems : List JSValue → List String
  | [] => []
  | v :: vs => (jsonStringify v).getD "null" :: jsonElems vs

/-- Object members under `JSON.stringify`: unserializable members are
dropped. -/
def jsonFields : List (String × JSValue) → List String
  | [] => []
  | (k, v) :: fs =>
      match jsonStringify v with
      | none => jsonFields fs
      | some j => (jsonQuote k ++ ":" ++ j) :: jsonFields fs

end

/-- A `{{ JSON.stringify(e) }}` interpolation: Vue renders an `undefined`
interpolation result as the empty string (the template's guards make that
case unreachable where this is used). -/
def jsonDisplay (v : JSValue) : String := (jsonStringify v).getD ""

/-- The property access `x.name` as used in `x => x.name`: `none` models the
TypeError raised by property access on `null`/`undefined`; functions yield
their declared name; objects their `name` member if any; other primitives
yield `undefined`. -/
def jsName : JSValue → Option JSValue
  | JSValue.undef => none
  | .null => none
  | .func f => some (.str f)
  | .obj fs => some (((fs.find? (fun kv => kv.fst == "name")).map Prod.snd).getD JSValue.undef)
  | _ => some JSValue.undef

/-- Evaluate `v.map(x => x.name)` left to right: `none` models the TypeError
propagating out of the mapping callback on a nullish element. -/
def jsNames : List JSValue → Option (List JSValue)
  | [] => some []
  | v :: vs =>
      match jsName v, jsNames vs with
      | some nm, some nms => some (nm :: nms)
      | _, _ => none

/-- Vue text interpolation (`String(v)`) of a value whose `typeof` is not
`'object'`: only booleans, numbers, strings and functions reach this in the
generated template (for a function Vue shows its source text; only the fact
that such a branch exists matters here). The `null`/`undef`/`arr`/`obj` cases
are unreachable behind the template's `typeof` tests. -/
def displayScalar : JSValue → String
  | .bool b => cond b "true" "false"
  | .num n => toString n
  | .str s => s
  | .func f => "function " ++ f ++ "() " ++ "\x7b ... \x7d"
  | .null => "null"
  | JSValue.undef => ""
  | .arr _ => ""
  | .obj _ => "[object Object]"

/-- The ternary `typeof(v) === 'object' ? JSON.stringify(v) : v` appearing in
both the non-callable-array branch and the non-array branch of the generated
fragment. -/
def objectOrScalarDisplay (v : JSValue) : String :=
  if typeofJS v = "object" then jsonDisplay v else displayScalar v

/-- Outcome of rendering one generated `<li>` fragment with a concrete bound
value: skipped by its `v-if`, an exception thrown while evaluating an embedded
expression, or a text node. -/
inductive RenderResult where
  | skipped
  | thrown
  | text (s : String)
  deriving DecidableEq, Repr

/-- Render-time behavior of the fragment generated for one property, with
`label` the identifier interpolated for `${next}` and `v` the value it is
bound to. Follows the fragment's structure:
`<li v-if="typeof(v) !== 'undefined'">` skips `undefined`; inside,
`<div v-if="Array.isArray(v)">` with `<div v-if="v?.some(x => typeof x ===
'function')">` shows `label-{{ JSON.stringify(v.map(x => x.name)) }}` and its
`v-else` shows `label-{{ typeof(v) === 'object' ? JSON.stringify(v) : v }}`;
the outer `v-else` shows the same ternary. `.thrown` models the TypeError
from `x.name` on a `null`/`undefined` array element in the callable branch. -/
def renderPropItem (label : String) (v : JSValue) : RenderResult :=
  match v with
  | JSValue.undef => .skipped
  | .arr es =>
      if es.any isCallable then
        match jsNames es with
        | some names => .text (label ++ "-" ++ jsonDisplay (.arr names))
        | none => .thrown
      else .text (label ++ "-" ++ objectOrScalarDisplay (.arr es))
  | _ => .text (label ++ "-" ++ objectOrScalarDisplay v)

/-- An element of a generator's variadic `props` list, typed
`(string | object)[]` in the source: a property-name string or an inline
object literal. -/
inductive PropArg where
  | str (s : String)
  | obj
  deriving DecidableEq, Repr

/-- One global pass of `next.replace` with the regex `-([a-z])` (global flag)
and replacement `m => m[1].toUpperCase()`: a left-to-right scan replacing each
hyphen-then-lowercase-ASCII-letter pair by the letter upper-cased; a hyphen
not followed by a lowercase ASCII letter is left in place and scanning
resumes at the following character. -/
def camelize : List Char → List Char
  | [] => []
  | '-' :: c :: rest =>
      if isLowerAscii c then c.toUpper :: camelize rest
      else '-' :: camelize (c :: rest)
  | c :: rest => c :: camelize rest

/-- The identifier interpolated for `${next}` in the generated fragment: a
string is camelCased when it contains a hyphen (the `typeof (next) ===
'string' && next.includes('-')` guard), and an inline object literal is
coerced by the template literal to `[object Object]`. -/
def interpProp : PropArg → String
  | .str s => if s.data.contains '-' then String.mk (camelize s.data) else s
  | .obj => "[object Object]"

/-- Comparison definition following the spec's words on hyphen normalization
(for the refinement check of claim C2): produce the normalized identifier by
removing each hyphen and upper-casing the character that followed it,
composing left-to-right. -/
def specHyphenRemoval : List Char → List Char
  | [] => []
  | c :: rest =>
      if c = '-' then
        match rest with
        | [] => []
        | c2 :: rest2 => c2.toUpper :: specHyphenRemoval rest2
      else c :: specHyphenRemoval rest

/-- Spec-side normalization on strings (comparison definition for claim
C2). -/
def specNormalizeStr (s : String) : String := String.mk (specHyphenRemoval s.data)

/-- Every hyphen in the character list is immediately followed by a lowercase
ASCII letter. -/
def hyphensAllLower : List Char → Bool
  | [] => true
  | c :: rest =>
      if c = '-' then
        match rest with
        | [] => false
        | c2 :: rest2 => isLowerAscii c2 && hyphensAllLower rest2
      else hyphensAllLower rest

/-- The `<li>` fragment appended for one element, with `next` spliced in at
every `${next}` of the source's template literal. -/
def liFragment (next : String) : String :=
  "<li v-if=\"typeof(" ++ next ++ ") !== 'undefined'\">\n" ++
  "                <div v-if=\"Array.isArray(" ++ next ++ ")\">\n" ++
  "                    <div v-if=\"" ++ next ++ "?.some(x => typeof x === 'function')\">\n" ++
  "                        " ++ next ++ "-\x7b\x7b JSON.stringify(" ++ next ++ ".map(x => x.name)) \x7d\x7d\n" ++
  "                    </div>\n" ++
  "                    <div v-else>\n" ++
  "                        " ++ next ++ "-\x7b\x7b typeof(" ++ next ++ ") === 'object' ? JSON.stringify(" ++ next ++ ") : " ++ next ++ " \x7d\x7d\n" ++
  "                    </div>\n" ++
  "                </div>\n" ++
  "                <div v-else>\n" ++
  "                    " ++ next ++ "-\x7b\x7b typeof(" ++ next ++ ") === 'object' ? JSON.stringify(" ++ next ++ ") : " ++ next ++ " \x7d\x7d\n" ++
  "                </div>\n" ++
  "            </li>"

/-- `propertiesWithValues(...props)`: the source's
`props.reduce((prev, next) => prev + liFragment, '')` fold, camelCasing
string elements that contain a hyphen before splicing. -/
def propertiesWithValues (props : List PropArg) : String :=
  props.foldl (fun prev next => prev ++ liFragment (interpProp next)) ""

/-- Per-element concatenation of the renderer's fragments: one list-item
fragment per input element, in order (used to restate the `reduce`). -/
def fragmentConcat : List PropArg → String
  | [] => ""
  | p :: ps => liFragment (interpProp p) ++ fragmentConcat ps

/-- `Validated`, the result type of the stubs' `validate` methods:
`{ valid: boolean, errors: [] }` (the error entries are opaque here; the
stubs always return an empty list). -/
structure Validated where
  valid : Bool
  errors : List String
  deriving DecidableEq, Repr

/-- Descriptor built by `getStub`. -/
structure BasicStub where
  name : String
  template : String

/-- `getStub(componentName)`: the returned pair models the single-entry
dictionary `stub[componentName] = { template, name }`. -/
def getStub (componentName : String) : String × BasicStub :=
  (componentName,
   { name := componentName ++ "-stub",
     template := "<div>" ++ componentName ++ "-stub</div>" })

/-- Descriptor built by `getStubWithProps`. -/
structure StubWithProps where
  name : String
  template : String
  props : List PropArg

/-- `getStubWithProps(componentName, ...props)`. -/
def getStubWithProps (componentName : String) (props : List PropArg) :
    String × StubWithProps :=
  (componentName,
   { name := componentName ++ "-stubWithProps",
     template :=
       "\n            <div>\n                " ++ componentName ++
       "-stub\n                <ul>\n                    " ++
       propertiesWithValues props ++
       "\n                </ul>\n            </div>\n        ",
     props := props })

/-- Descriptor built by `getEmittingStub`: alongside the name and template it
records the `emittedEvent` spliced into the `@click` handler and button label,
the `data`-held `emittedValues`, and the fixed result of its `validate`
method (`reset`/`resetValidation` are no-ops and carry no information). -/
structure EmittingStub where
  name : String
  template : String
  emittedEvent : String
  dataEmittedValues : List JSValue
  validateResult : Validated

/-- `getEmittingStub(componentName, emittedEvent, ...emittedValues)`. -/
def getEmittingStub (componentName emittedEvent : String)
    (emittedValues : List JSValue) : String × EmittingStub :=
  (componentName,
   { name := componentName ++ "-emittingStub",
     template :=
       "\n        <div>\n            <div>\n                " ++ componentName ++
       "-stub\n            </div>\n            <button @click=\"$emit('" ++
       emittedEvent ++ "', ...emittedValues)\">" ++ emittedEvent ++
       "</button>\n        </div>\n        ",
     emittedEvent := emittedEvent,
     dataEmittedValues := emittedValues,
     validateResult := { valid := true, errors := [] } })

/-- Descriptor built by `getEmittingStubWithProps`. -/
structure EmittingStubWithProps where
  name : String
  template : String
  emittedEvent : String
  dataEmittedValues : List JSValue
  props : List PropArg
  validateResult : Validated

/-- `getEmittingStubWithProps(componentName, emittedEvent, emittedValues,
...props)`. -/
def getEmittingStubWithProps (componentName emittedEvent : String)
    (emittedValues : List JSValue) (props : List PropArg) :
    String × EmittingStubWithProps :=
  (componentName,
   { name := componentName ++ "-emittingStubWithProps",
     template :=
       "\n        <div>\n            " ++ componentName ++
       "-stub\n            <ul>\n                " ++
       propertiesWithValues props ++
       "\n            </ul>\n            <button @click=\"$emit('" ++
       emittedEvent ++ "', ...emittedValues)\">" ++ emittedEvent ++
       "</button>\n        </div>\n        ",
     emittedEvent := emittedEvent,
     dataEmittedValues := emittedValues,
     props := props,
     validateResult := { valid := true, errors := [] } })

/-- Activating the `@click="$emit('<event>', ...emittedValues)"` control of
the single-event stubs: the event name with the full values sequence spread
as the emission's argument list. -/
def singleClickEmission (emittedEvent : String) (emittedValues : List JSValue) :
    String × List JSValue :=
  (emittedEvent, emittedValues)

/-- `EmittedEvent = { name: string; value?: any }`. -/
structure EmittedEvent where
  name : String
  value : Option JSValue

/-- Descriptor built by `getMultiEmittingStubWithProps`. -/
structure MultiEmittingStubWithProps where
  name : String
  template : String
  dataEvents : List EmittedEvent
  props : List PropArg

/-- `getMultiEmittingStubWithProps(componentName, events, ...props)`. -/
def getMultiEmittingStubWithProps (componentName : String)
    (events : List EmittedEvent) (props : List PropArg) :
    String × MultiEmittingStubWithProps :=
  (componentName,
   { name := componentName ++ "-multiEmittingStubWithProps",
     template :=
       "\n        <div>\n            " ++ componentName ++
       "-stub\n            <ul>\n                " ++
       propertiesWithValues props ++
       "\n            </ul>\n            <button v-for=\"event in events\" @click=\"$emit(event.name, event.value)\">\x7b\x7bevent.name\x7d\x7d</button>\n        </div>\n        ",
     dataEvents := events,
     props := props })

/-- The controls rendered by `<button v-for="event in events" ...>
{{event.name}}</button>`: one button per event, in order, labeled with the
event's name. -/
def multiControls (events : List EmittedEvent) : List String :=
  events.map EmittedEvent.name

/-- Activating the control for one event runs `$emit(event.name,
event.value)`: always exactly one payload argument, the JS member access
`event.value` yielding `undefined` when the spec has no `value`. -/
def multiClickEmission (e : EmittedEvent) : String × List JSValue :=
  (e.name, [e.value.getD JSValue.undef])

/-- Descriptor built by `getExposedValidateStub`: the `validate` field maps
the current `validateCalled` data value to the new one and the returned
`Validated` — the method body sets `$data.validateCalled = true` and returns
`{ valid: isValid, errors: [] }`. -/
structure ExposedValidateStub where
  name : String
  template : String
  validateCalledInit : Bool
  validate : Bool → Bool × Validated

/-- `getExposedValidateStub(componentName, isValid = true)`. -/
def getExposedValidateStub (componentName : String) (isValid : Bool := true) :
    String × ExposedValidateStub :=
  (componentName,
   { name := componentName ++ "-exposedValidateStub",
     template :=
       "\n            <div>\n                " ++ componentName ++
       "-stub-validated-\x7b\x7bvalidateCalled\x7d\x7d\n            </div>",
     validateCalledInit := false,
     validate := fun _ => (true, { valid := isValid, errors := [] }) })

/-- Descriptor built by `getExposedValidateStubWithProps`. -/
structure ExposedValidateStubWithProps where
  name : String
  template : String
  validateCalledInit : Bool
  validate : Bool → Bool × Validated
  props : List PropArg

/-- `getExposedValidateStubWithProps(componentName, isValid = true,
...props)`. -/
def getExposedValidateStubWithProps (componentName : String)
    (isValid : Bool := true) (props : List PropArg := []) :
    String × ExposedValidateStubWithProps :=
  (componentName,
   { name := componentName ++ "-exposedValidateStubWithProps",
     template :=
       "\n            <div>\n                " ++ componentName ++
       "-stub-validated-\x7b\x7bvalidateCalled\x7d\x7d\n                <ul>\n                    " ++
       propertiesWithValues props ++
       "\n                </ul>\n            </div>",
     validateCalledInit := false,
     validate := fun _ => (true, { valid := isValid, errors := [] }),
     props := props })

/-- The text rendered by the exposed-validate templates' marker line,
`${componentName}-stub-validated-{{validateCalled}}`, with the boolean local
datum interpolated as `true`/`false`. -/
def renderValidatedMarker (componentName : String) (validateCalled : Bool) :
    String :=
  componentName ++ "-stub-validated-" ++ cond validateCalled "true" "false"

/-- A Vue component value as far as this library inspects it: an options
object carrying a name and a template. -/
structure Component where
  name : String
  template : String

/-- The JS string coercion applied by `componentAlias + '-withExposedFunction'`
to a component options value: a plain object coerces to `[object Object]`. -/
def jsObjectCoercion (_c : Component) : String := "[object Object]"

/-- Descriptor built by `getTemplateComponentForExposedFunction` (returned
bare, not wrapped in a one-entry dictionary). `props` holds the keys of the
caller's optional `props` object, each of which the source declares loosely
as `localProps[x] = { }`; `exposedFn` is the method name the wrapper's
`exposedFn` method invokes on `$refs.ref`. -/
structure WrapperComponent where
  name : String
  template : String
  components : Component
  props : List String
  exposedFn : String

/-- `getTemplateComponentForExposedFunction(componentAlias, exposedFn,
props?)`, with the optional `props` object represented by its key list (the
source reads it only through `Object.keys`). -/
def getTemplateComponentForExposedFunction (componentAlias : Component)
    (exposedFn : String) (props : Option (List String)) : WrapperComponent :=
  let propIdentifiersForComponentAlias :=
    match props with
    | none => ""
    | some ks =>
        ks.foldl (fun prev next => prev ++ ":" ++ next ++ "=\"" ++ next ++ "\" ") ""
  { name := jsObjectCoercion componentAlias ++ "-withExposedFunction",
    template :=
      "\n            <div>\n                <component-alias " ++
      propIdentifiersForComponentAlias ++
      "ref=\"ref\" />\n                <button @click=\"exposedFn\">" ++
      exposedFn ++ "</button>\n            </div>\n        ",
    components := componentAlias,
    props := props.getD [],
    exposedFn := exposedFn }

/-! Helper lemmas. -/

/-- Helper: the `reduce` in `propertiesWithValues` appends one fragment per
element after any accumulator. -/
theorem propertiesWithValues_foldl (ps : List PropArg) (acc : String) :
    ps.foldl (fun prev next => prev ++ liFragment (interpProp next)) acc
      = acc ++ fragmentConcat ps := by
  induction ps generalizing acc with
  | nil => simp [fragmentConcat]
  | cons p ps ih =>
      simp only [List.foldl, fragmentConcat, ih, String.append_assoc]

/-- Helper: on identifiers whose hyphens all precede lowercase ASCII letters,
the code's camelCase pass agrees with the spec's hyphen-removal rule. -/
theorem camelize_eq_spec (cs : List Char) (h : hyphensAllLower cs = true) :
    camelize cs = specHyphenRemoval cs := by
  induction cs using camelize.induct with
  | case1 => rfl
  | case2 c rest hlow ih =>
      rw [hyphensAllLower.eq_def] at h
      simp [hlow] at h
      rw [specHyphenRemoval.eq_def]
      simp [camelize, hlow, ih h]
  | case3 c rest hlow ih =>
      rw [hyphensAllLower.eq_def] at h
      simp [hlow] at h
  | case4 c rest hne ih =>
      by_cases hc : c = '-'
      · subst hc
        have hrest : rest = [] := by
          cases rest with
          | nil => rfl
          | cons a as => exact absurd rfl (hne a as rfl)
        subst hrest
        rw [hyphensAllLower.eq_def] at h
        simp at h
      · have h' : hyphensAllLower rest = true := by
          rw [hyphensAllLower.eq_def] at h
          simpa [hc] using h
        rw [camelize.eq_def, specHyphenRemoval.eq_def]
        simp [hc, ih h']

/-- Helper: the spec's hyphen-removal rule leaves a hyphen-free identifier
unchanged. -/
theorem specHyphenRemoval_no_hyphen (cs : List Char)
    (h : cs.contains '-' = false) : specHyphenRemoval cs = cs := by
  induction cs with
  | nil => rfl
  | cons c rest ih =>
      simp at h
      have hc : ¬ c = '-' := fun hh => h.1 hh.symm
      rw [specHyphenRemoval.eq_def]
      simp [hc, ih (by simpa using h.2)]

/-! Claim theorems. -/

/-- Claim C1 (counterexample): bound to the array `[function f, 1]` — an
array in which not every element is callable — the fragment for `rules`
renders the function-name form `rules-["f",null]`, not the JSON
serialization `rules-[null,1]` that the claim requires for an array whose
elements are not all callable. -/
theorem C1_counterexample :
    ([JSValue.func "f", JSValue.num 1].all isCallable = false) ∧
    renderPropItem "rules" (.arr [.func "f", .num 1])
      ≠ .text ("rules-" ++ jsonDisplay (.arr [.func "f", .num 1])) ∧
    renderPropItem "rules" (.arr [.func "f", .num 1])
      = .text "rules-[\"f\",null]" :=
  ⟨rfl, by decide, rfl⟩

/-- Claim C1 (amended): the fragment generated for a property renders the
function-name form (label, hyphen, JSON array of each element's declared
name) if and only if the bound value is an array in which SOME element is
callable (whenever the `name` accesses evaluate without a TypeError); an
array with no callable element is instead rendered as the label followed by
the value JSON-serialized. -/
theorem C1_amended (label : String) (es : List JSValue) :
    (∀ names, es.any isCallable = true → jsNames es = some names →
        renderPropItem label (.arr es)
          = .text (label ++ "-" ++ jsonDisplay (.arr names))) ∧
    (es.any isCallable = false →
        renderPropItem label (.arr es)
          = .text (label ++ "-" ++ jsonDisplay (.arr es))) := by
  constructor
  · intro names h hm
    simp [renderPropItem, h, hm]
  · intro h
    simp [renderPropItem, h, objectOrScalarDisplay, typeofJS]

/-- Claim C1 (witness): the amended statement at the mixed array
`[function f, 1]` (some element callable) and at `["a", "b"]` (no element
callable). -/
theorem C1_amended_witness :
    renderPropItem "rules" (.arr [.func "f", .num 1])
      = .text ("rules-" ++ jsonDisplay (.arr [.str "f", JSValue.undef])) ∧
    renderPropItem "items" (.arr [.str "a", .str "b"])
      = .text ("items-" ++ jsonDisplay (.arr [.str "a", .str "b"])) :=
  ⟨(C1_amended "rules" [.func "f", .num 1]).1 [.str "f", JSValue.undef] rfl rfl,
   (C1_amended "items" [.str "a", .str "b"]).2 rfl⟩

/-- Claim C2 (counterexample): `prop-Name` contains a hyphen, yet the
identifier embedded in the generated markup keeps it — the code yields
`prop-Name`, while removing the hyphen and upper-casing the character that
followed it yields `propName`. -/
theorem C2_counterexample :
    ("prop-Name".data.contains '-' = true) ∧
    specNormalizeStr "prop-Name" = "propName" ∧
    interpProp (.str "prop-Name") = "prop-Name" ∧
    interpProp (.str "prop-Name") ≠ specNormalizeStr "prop-Name" :=
  ⟨by decide, by decide, by decide, by decide⟩

/-- Claim C2 (amended): for every string identifier in which each hyphen is
immediately followed by a lowercase ASCII letter, the identifier embedded in
the generated markup is obtained by removing each hyphen and upper-casing the
character that followed it, composing left-to-right. -/
theorem C2_amended (s : String) (h : hyphensAllLower s.data = true) :
    interpProp (.str s) = specNormalizeStr s := by
  obtain ⟨cs⟩ := s
  show (if cs.contains '-' then String.mk (camelize cs) else String.mk cs)
      = String.mk (specHyphenRemoval cs)
  by_cases hc : cs.contains '-'
  · rw [if_pos hc]
    exact congrArg String.mk (camelize_eq_spec cs h)
  · rw [if_neg hc]
    rw [specHyphenRemoval_no_hyphen cs (by simpa using hc)]

/-- Claim C2 (witness): the amended statement at the spec's examples
`is-active` and `multi-hyphen-prop-name`. -/
theorem C2_amended_witness :
    interpProp (.str "is-active") = "isActive" ∧
    interpProp (.str "multi-hyphen-prop-name") = "multiHyphenPropName" :=
  ⟨(C2_amended "is-active" (by decide)).trans (by decide),
   (C2_amended "multi-hyphen-prop-name" (by decide)).trans (by decide)⟩

/-- Claim C3 (counterexample): an inline object literal in the property list
DOES contribute a list-item fragment — `propertiesWithValues` on a single
object element produces the fragment obtained by splicing the object's
string coercion `[object Object]`, not the empty markup produced for the
empty list. -/
theorem C3_counterexample :
    propertiesWithValues [PropArg.obj] = liFragment "[object Object]" ∧
    propertiesWithValues [PropArg.obj] ≠ propertiesWithValues [] :=
  ⟨rfl, by decide⟩

/-- Claim C3 (amended): every element of the property list, inline object
literals included, contributes exactly one list-item fragment, in order;
a string identifier is spliced (camelCased when hyphenated) and an object
literal is spliced as its string coercion `[object Object]`. -/
theorem C3_amended (ps : List PropArg) :
    propertiesWithValues ps = fragmentConcat ps := by
  rw [propertiesWithValues, propertiesWithValues_foldl]
  cases fragmentConcat ps
  rfl

/-- Claim C3 (witness): the amended statement at a one-object list. -/
theorem C3_amended_witness :
    propertiesWithValues [PropArg.obj] = fragmentConcat [PropArg.obj] :=
  C3_amended [PropArg.obj]

/-- Claim C4 (confirmed): the multi-emitting descriptor holds its event list
unchanged; one control per event spec is rendered, in order, labeled with the
event names; activating the control of event spec i emits event i's name
with exactly one payload argument — the spec's value, or `undefined` when it
has none; zero specs yield zero controls. -/
theorem C4_multi_controls (n : String) (events : List EmittedEvent)
    (ps : List PropArg) :
    ((getMultiEmittingStubWithProps n events ps).2.dataEvents = events) ∧
    (multiControls (getMultiEmittingStubWithProps n events ps).2.dataEvents
       = events.map EmittedEvent.name) ∧
    (∀ i (h : i < events.length),
        multiClickEmission (events.get ⟨i, h⟩)
          = ((events.get ⟨i, h⟩).name,
             [(events.get ⟨i, h⟩).value.getD JSValue.undef])) ∧
    (∀ e, (multiClickEmission e).2.length = 1) ∧
    (events = [] →
        multiControls (getMultiEmittingStubWithProps n events ps).2.dataEvents
          = []) := by
  refine ⟨rfl, rfl, fun i h => rfl, fun e => rfl, fun h => ?_⟩
  subst h
  rfl

/-- Claim C4 (witness): the spec's example — two event specs, the second
(`cancel`) without a value; its control emits `cancel` with the one-element
payload `[undefined]`. -/
theorem C4_multi_controls_witness :
    multiClickEmission (([⟨"save", some (JSValue.obj [("id", JSValue.num 1)])⟩,
          ⟨"cancel", none⟩] : List EmittedEvent).get ⟨1, by decide⟩)
      = ("cancel", [JSValue.undef]) :=
  ((C4_multi_controls "MyComponent"
      [⟨"save", some (JSValue.obj [("id", JSValue.num 1)])⟩, ⟨"cancel", none⟩]
      []).2.2.1 1 (by decide)).trans rfl

/-- Claim C5 (confirmed): activating the single-event control of
`getEmittingStub`/`getEmittingStubWithProps` emits the named event with the
full values sequence spread as the payload argument list, so the payload
equals the sequence itself — `[{id:123}]` for `emittingStub(n, "save",
{id:123})` and zero arguments for an empty sequence. -/
theorem C5_single_event_spread (n ev : String) (vs : List JSValue)
    (ps : List PropArg) :
    (singleClickEmission (getEmittingStub n ev vs).2.emittedEvent
        (getEmittingStub n ev vs).2.dataEmittedValues = (ev, vs)) ∧
    (singleClickEmission (getEmittingStubWithProps n ev vs ps).2.emittedEvent
        (getEmittingStubWithProps n ev vs ps).2.dataEmittedValues = (ev, vs)) ∧
    (singleClickEmission
        (getEmittingStub n "save" [JSValue.obj [("id", JSValue.num 123)]]).2.emittedEvent
        (getEmittingStub n "save"
          [JSValue.obj [("id", JSValue.num 123)]]).2.dataEmittedValues
      = ("save", [JSValue.obj [("id", JSValue.num 123)]])) ∧
    (singleClickEmission (getEmittingStub n ev []).2.emittedEvent
        (getEmittingStub n ev []).2.dataEmittedValues
      = (ev, ([] : List JSValue))) :=
  ⟨rfl, rfl, rfl, rfl⟩

/-- Claim C6 (counterexample): the exposed-function wrapper's name is the
string coercion of the component value, not the component's own name — for a
component named `MockComponent` the wrapper descriptor's name is
`[object Object]-withExposedFunction`. -/
theorem C6_counterexample :
    (getTemplateComponentForExposedFunction
        { name := "MockComponent", template := "<div>Mock Component</div>" }
        "reset" none).name ≠ "MockComponent" ++ "-withExposedFunction" ∧
    (getTemplateComponentForExposedFunction
        { name := "MockComponent", template := "<div>Mock Component</div>" }
        "reset" none).name = "[object Object]-withExposedFunction" :=
  ⟨by decide, rfl⟩

/-- Claim C6 (amended): every name-taking generator produces a descriptor
named `<componentName>-<variantSuffix>`; the exposed-function wrapper instead
prefixes `-withExposedFunction` with the JS string coercion of the supplied
component value (for a plain component options object, `[object Object]`),
regardless of that component's own name. -/
theorem C6_amended (n ev : String) (vs : List JSValue) (ps : List PropArg)
    (events : List EmittedEvent) (b : Bool) (c : Component) (fn : String)
    (pr : Option (List String)) :
    ((getStub n).2.name = n ++ "-stub") ∧
    ((getStubWithProps n ps).2.name = n ++ "-stubWithProps") ∧
    ((getEmittingStub n ev vs).2.name = n ++ "-emittingStub") ∧
    ((getEmittingStubWithProps n ev vs ps).2.name
       = n ++ "-emittingStubWithProps") ∧
    ((getMultiEmittingStubWithProps n events ps).2.name
       = n ++ "-multiEmittingStubWithProps") ∧
    ((getExposedValidateStub n b).2.name = n ++ "-exposedValidateStub") ∧
    ((getExposedValidateStubWithProps n b ps).2.name
       = n ++ "-exposedValidateStubWithProps") ∧
    ((getTemplateComponentForExposedFunction c fn pr).name
       = jsObjectCoercion c ++ "-withExposedFunction") :=
  ⟨rfl, rfl, rfl, rfl, rfl, rfl, rfl, rfl⟩

/-- Claim C7 (confirmed): `getExposedValidateStub(n, b)` starts with its
`validateCalled` flag false, rendering the marker `n-stub-validated-false`;
invoking `validate` sets the flag to true — after which the marker is
`n-stub-validated-true` — and returns exactly `{ valid: b, errors: [] }`. -/
theorem C7_exposed_validate (n : String) (b : Bool) :
    ((getExposedValidateStub n b).2.validateCalledInit = false) ∧
    (renderValidatedMarker n (getExposedValidateStub n b).2.validateCalledInit
       = n ++ "-stub-validated-false") ∧
    (∀ s, (getExposedValidateStub n b).2.validate s
        = (true, { valid := b, errors := [] })) ∧
    (∀ s, renderValidatedMarker n ((getExposedValidateStub n b).2.validate s).1
        = n ++ "-stub-validated-true") := by
  refine ⟨rfl, ?_, fun _ => rfl, fun _ => ?_⟩
  · show n ++ "-stub-validated-" ++ "false" = n ++ "-stub-validated-false"
    simp only [String.append_assoc]
    rfl
  · show n ++ "-stub-validated-" ++ "true" = n ++ "-stub-validated-true"
    simp only [String.append_assoc]
    rfl

/-- Claim C8 (confirmed): the generated fragment renders output for a
property only when its bound value is defined — an `undefined` value is
skipped by the fragment's `v-if`, only `undefined` is skipped, and any
rendered text is the label, a hyphen, and the formatted value. -/
theorem C8_undefined_skipped (label : String) (v : JSValue) :
    (renderPropItem label JSValue.undef = .skipped) ∧
    (renderPropItem label v = .skipped → v = JSValue.undef) ∧
    (∀ s, renderPropItem label v = .text s → ∃ t, s = label ++ "-" ++ t) := by
  refine ⟨rfl, ?_, ?_⟩
  · intro h
    cases v with
    | undef => rfl
    | arr es =>
        cases hc : es.any isCallable with
        | true =>
            rcases hm : jsNames es with _ | names <;>
              simp [renderPropItem, hc, hm] at h
        | false => simp [renderPropItem, hc] at h
    | null => simp [renderPropItem] at h
    | bool b => simp [renderPropItem] at h
    | num x => simp [renderPropItem] at h
    | str s => simp [renderPropItem] at h
    | func f => simp [renderPropItem] at h
    | obj fs => simp [renderPropItem] at h
  · intro s h
    cases v with
    | undef => simp [renderPropItem] at h
    | arr es =>
        cases hc : es.any isCallable with
        | true =>
            rcases hm : jsNames es with _ | names <;>
              simp [renderPropItem, hc, hm] at h
            exact ⟨_, h.symm⟩
        | false =>
            simp [renderPropItem, hc] at h
            exact ⟨_, h.symm⟩
    | null => exact ⟨_, by simpa [renderPropItem] using h.symm⟩
    | bool b => exact ⟨_, by simpa [renderPropItem] using h.symm⟩
    | num x => exact ⟨_, by simpa [renderPropItem] using h.symm⟩
    | str t => exact ⟨_, by simpa [renderPropItem] using h.symm⟩
    | func f => exact ⟨_, by simpa [renderPropItem] using h.symm⟩
    | obj fs => exact ⟨_, by simpa [renderPropItem] using h.symm⟩

/-- Claim C8 (witness): `title` bound to `"Hello World"` renders
`title-Hello World`; an `undefined` binding is skipped. -/
theorem C8_undefined_skipped_witness :
    renderPropItem "title" JSValue.undef = .skipped ∧
    (∃ t, "title-Hello World" = "title" ++ "-" ++ t) :=
  ⟨(C8_undefined_skipped "title" JSValue.undef).1,
   (C8_undefined_skipped "title" (JSValue.str "Hello World")).2.2
     "title-Hello World" rfl⟩

/-- Claim C9 (confirmed): every props-rendering generator exports the
caller-supplied identifier sequence unchanged in its `props` field (the
camelCasing touches only the template), and the descriptors hold the supplied
events and values lists unchanged; the generators are pure term-level
builders, so no input is mutated. -/
theorem C9_props_preserved (n ev : String) (vs : List JSValue)
    (ps : List PropArg) (events : List EmittedEvent) (b : Bool) :
    ((getStubWithProps n ps).2.props = ps) ∧
    ((getEmittingStubWithProps n ev vs ps).2.props = ps) ∧
    ((getEmittingStubWithProps n ev vs ps).2.dataEmittedValues = vs) ∧
    ((getMultiEmittingStubWithProps n events ps).2.props = ps) ∧
    ((getMultiEmittingStubWithProps n events ps).2.dataEvents = events) ∧
    ((getExposedValidateStubWithProps n b ps).2.props = ps) :=
  ⟨rfl, rfl, rfl, rfl, rfl, rfl⟩

/-- Claim C10 (confirmed): the camelCase pass rewrites only a hyphen
immediately followed by a lowercase ASCII letter; a hyphen followed by
anything else, or ending the identifier, is left unchanged — in particular
`prop-Name` and `prop-1` keep their hyphens in the embedded identifier. -/
theorem C10_hyphen_guard (c : Char) (rest : List Char)
    (h : isLowerAscii c = false) :
    (camelize ('-' :: c :: rest) = '-' :: camelize (c :: rest)) ∧
    (camelize ['-'] = ['-']) ∧
    (interpProp (.str "prop-Name") = "prop-Name") ∧
    (interpProp (.str "prop-1") = "prop-1") := by
  refine ⟨?_, rfl, by decide, by decide⟩
  simp [camelize, h]

/-- Claim C10 (witness): the general statement at the hyphen of
`prop-Name`. -/
theorem C10_hyphen_guard_witness :
    camelize ('-' :: 'N' :: ['a', 'm', 'e']) = '-' :: camelize ('N' :: ['a', 'm', 'e']) :=
  (C10_hyphen_guard 'N' ['a', 'm', 'e'] (by decide)).1

end VueStubs
